import Mathlib

/-!
Shallow embedding of the `syscall-util` crate (x86-64 syscall invocation
layer and errno table) and proofs of its specified properties.

Machine integers are modelled as mathematical integers with explicit
two's-complement reinterpretation where the source performs an `as` cast:
`isize` values are `Int`s in the range `[-2^63, 2^63)`, `usize` values are
`Nat`s below `2^64`.
-/

/-- Smallest value of the 64-bit signed machine word (`isize::MIN`). -/
def isizeMin : Int := -(2 ^ 63)

/-- Largest value of the 64-bit signed machine word (`isize::MAX`). -/
def isizeMax : Int := 2 ^ 63 - 1

/-- Rust `as usize` cast of a 64-bit signed value: two's-complement
reinterpretation of the bit pattern as an unsigned machine word. -/
def isizeToUsize (x : Int) : Nat := (x % 2 ^ 64).toNat

/-- Reinterpretation of an unsigned machine word as a 64-bit signed value
(the inverse direction of `isizeToUsize` on in-range words). -/
def usizeToIsize (n : Nat) : Int := if n < 2 ^ 63 then (n : Int) else (n : Int) - 2 ^ 64

/-- Wrapping (two's-complement) negation of a 64-bit signed value, the
semantics of Rust's unary `-` on `isize` when overflow checks are off
(release profile). -/
def wrapNegIsize (x : Int) : Int := (-x + 2 ^ 63) % 2 ^ 64 - 2 ^ 63

/-- Embedding of `convert_raw_return_code_from_rax` (src/arch/x86_64/call.rs):
if `raw_code < 0` the result is `Err((-raw_code) as usize)`, otherwise
`Ok(raw_code as usize)`.  Unary negation uses the wrapping semantics of the
release profile, so the function is total on the `isize` range. -/
def convert_raw_return_code_from_rax (raw_code : Int) : Except Nat Nat :=
  if raw_code < 0 then
    Except.error (isizeToUsize (wrapNegIsize raw_code))
  else
    Except.ok (isizeToUsize raw_code)

/-- Embedding of `convert_raw_return_code_from_rax` under checked (debug
profile) arithmetic: the negation `-raw_code` panics (modelled as `none`)
when its mathematical value does not fit in `isize`. -/
def convert_raw_return_code_from_rax_checked (raw_code : Int) : Option (Except Nat Nat) :=
  if raw_code < 0 then
    if isizeMin ≤ -raw_code ∧ -raw_code ≤ isizeMax then
      some (Except.error (isizeToUsize (-raw_code)))
    else
      none
  else
    some (Except.ok (isizeToUsize raw_code))

/-!
The seven arity-specific entry points (src/arch/x86_64/call.rs).  Each one
executes the `syscall` instruction with the syscall number in `rax` and the
arguments in `rdi`, `rsi`, `rdx`, `r10`, `r8`, `r9` in positional order, and
feeds the raw signed value left in `rax` to the shared conversion helper.
The kernel transition is opaque to this layer; it is modelled as an oracle
mapping the syscall number and the ordered argument words to the raw signed
return value.  Checked conversion semantics are used, matching the
assertions-enabled build of the source.
-/

/-- The kernel transition, as seen from this layer: syscall number and
ordered argument registers in, raw signed `rax` out. -/
def Kernel : Type := Nat → List Nat → Int

/-- Embedding of `syscall_without_args`. -/
def syscall_without_args (k : Kernel) (num : Nat) : Option (Except Nat Nat) :=
  convert_raw_return_code_from_rax_checked (k num [])

/-- Embedding of `syscall_with_1_arg`. -/
def syscall_with_1_arg (k : Kernel) (num arg1 : Nat) : Option (Except Nat Nat) :=
  convert_raw_return_code_from_rax_checked (k num [arg1])

/-- Embedding of `syscall_with_2_args`. -/
def syscall_with_2_args (k : Kernel) (num arg1 arg2 : Nat) : Option (Except Nat Nat) :=
  convert_raw_return_code_from_rax_checked (k num [arg1, arg2])

/-- Embedding of `syscall_with_3_args`. -/
def syscall_with_3_args (k : Kernel) (num arg1 arg2 arg3 : Nat) : Option (Except Nat Nat) :=
  convert_raw_return_code_from_rax_checked (k num [arg1, arg2, arg3])

/-- Embedding of `syscall_with_4_args`. -/
def syscall_with_4_args (k : Kernel) (num arg1 arg2 arg3 arg4 : Nat) :
    Option (Except Nat Nat) :=
  convert_raw_return_code_from_rax_checked (k num [arg1, arg2, arg3, arg4])

/-- Embedding of `syscall_with_5_args`. -/
def syscall_with_5_args (k : Kernel) (num arg1 arg2 arg3 arg4 arg5 : Nat) :
    Option (Except Nat Nat) :=
  convert_raw_return_code_from_rax_checked (k num [arg1, arg2, arg3, arg4, arg5])

/-- Embedding of `syscall_with_6_args`. -/
def syscall_with_6_args (k : Kernel) (num arg1 arg2 arg3 arg4 arg5 arg6 : Nat) :
    Option (Except Nat Nat) :=
  convert_raw_return_code_from_rax_checked (k num [arg1, arg2, arg3, arg4, arg5, arg6])

/-- Embedding of the `Errno` enumeration (src/errno.rs): the closed set of
symbolic kernel error conditions.  The numeric discriminants assigned by the
source (`#[repr(u32)]`, explicit values 1 to 133 with 41 and 58 absent) are
carried by `Errno.toCode` below. -/
inductive Errno : Type where
  | EPERM
  | ENOENT
  | ESRCH
  | EINTR
  | EIO
  | ENXIO
  | E2BIG
  | ENOEXEC
  | EBADF
  | ECHILD
  | EAGAIN
  | ENOMEM
  | EACCES
  | EFAULT
  | ENOTBLK
  | EBUSY
  | EEXIST
  | EXDEV
  | ENODEV
  | ENOTDIR
  | EISDIR
  | EINVAL
  | ENFILE
  | EMFILE
  | ENOTTY
  | ETXTBSY
  | EFBIG
  | ENOSPC
  | ESPIPE
  | EROFS
  | EMLINK
  | EPIPE
  | EDOM
  | ERANGE
  | EDEADLK
  | ENAMETOOLONG
  | ENOLCK
  | ENOSYS
  | ENOTEMPTY
  | ELOOP
  | ENOMSG
  | EIDRM
  | ECHRNG
  | EL2NSYNC
  | EL3HLT
  | EL3RST
  | ELNRNG
  | EUNATCH
  | ENOCSI
  | EL2HLT
  | EBADE
  | EBADR
  | EXFULL
  | ENOANO
  | EBADRQC
  | EBADSLT
  | EBFONT
  | ENOSTR
  | ENODATA
  | ETIME
  | ENOSR
  | ENONET
  | ENOPKG
  | EREMOTE
  | ENOLINK
  | EADV
  | ESRMNT
  | ECOMM
  | EPROTO
  | EMULTIHOP
  | EDOTDOT
  | EBADMSG
  | EOVERFLOW
  | ENOTUNIQ
  | EBADFD
  | EREMCHG
  | ELIBACC
  | ELIBBAD
  | ELIBSCN
  | ELIBMAX
  | ELIBEXEC
  | EILSEQ
  | ERESTART
  | ESTRPIPE
  | EUSERS
  | ENOTSOCK
  | EDESTADDRREQ
  | EMSGSIZE
  | EPROTOTYPE
  | ENOPROTOOPT
  | EPROTONOSUPPORT
  | ESOCKTNOSUPPORT
  | EOPNOTSUPP
  | EPFNOSUPPORT
  | EAFNOSUPPORT
  | EADDRINUSE
  | EADDRNOTAVAIL
  | ENETDOWN
  | ENETUNREACH
  | ENETRESET
  | ECONNABORTED
  | ECONNRESET
  | ENOBUFS
  | EISCONN
  | ENOTCONN
  | ESHUTDOWN
  | ETOOMANYREFS
  | ETIMEDOUT
  | ECONNREFUSED
  | EHOSTDOWN
  | EHOSTUNREACH
  | EALREADY
  | EINPROGRESS
  | ESTALE
  | EUCLEAN
  | ENOTNAM
  | ENAVAIL
  | EISNAM
  | EREMOTEIO
  | EDQUOT
  | ENOMEDIUM
  | EMEDIUMTYPE
  | ECANCELED
  | ENOKEY
  | EKEYEXPIRED
  | EKEYREVOKED
  | EKEYREJECTED
  | EOWNERDEAD
  | ENOTRECOVERABLE
  | ERFKILL
  | EHWPOISON
  deriving DecidableEq, BEq

/-- Numeric discriminant of each `Errno` member, exactly as written in
src/errno.rs. -/
def Errno.toCode : Errno → Nat
  | Errno.EPERM => 1
  | Errno.ENOENT => 2
  | Errno.ESRCH => 3
  | Errno.EINTR => 4
  | Errno.EIO => 5
  | Errno.ENXIO => 6
  | Errno.E2BIG => 7
  | Errno.ENOEXEC => 8
  | Errno.EBADF => 9
  | Errno.ECHILD => 10
  | Errno.EAGAIN => 11
  | Errno.ENOMEM => 12
  | Errno.EACCES => 13
  | Errno.EFAULT => 14
  | Errno.ENOTBLK => 15
  | Errno.EBUSY => 16
  | Errno.EEXIST => 17
  | Errno.EXDEV => 18
  | Errno.ENODEV => 19
  | Errno.ENOTDIR => 20
  | Errno.EISDIR => 21
  | Errno.EINVAL => 22
  | Errno.ENFILE => 23
  | Errno.EMFILE => 24
  | Errno.ENOTTY => 25
  | Errno.ETXTBSY => 26
  | Errno.EFBIG => 27
  | Errno.ENOSPC => 28
  | Errno.ESPIPE => 29
  | Errno.EROFS => 30
  | Errno.EMLINK => 31
  | Errno.EPIPE => 32
  | Errno.EDOM => 33
  | Errno.ERANGE => 34
  | Errno.EDEADLK => 35
  | Errno.ENAMETOOLONG => 36
  | Errno.ENOLCK => 37
  | Errno.ENOSYS => 38
  | Errno.ENOTEMPTY => 39
  | Errno.ELOOP => 40
  | Errno.ENOMSG => 42
  | Errno.EIDRM => 43
  | Errno.ECHRNG => 44
  | Errno.EL2NSYNC => 45
  | Errno.EL3HLT => 46
  | Errno.EL3RST => 47
  | Errno.ELNRNG => 48
  | Errno.EUNATCH => 49
  | Errno.ENOCSI => 50
  | Errno.EL2HLT => 51
  | Errno.EBADE => 52
  | Errno.EBADR => 53
  | Errno.EXFULL => 54
  | Errno.ENOANO => 55
  | Errno.EBADRQC => 56
  | Errno.EBADSLT => 57
  | Errno.EBFONT => 59
  | Errno.ENOSTR => 60
  | Errno.ENODATA => 61
  | Errno.ETIME => 62
  | Errno.ENOSR => 63
  | Errno.ENONET => 64
  | Errno.ENOPKG => 65
  | Errno.EREMOTE => 66
  | Errno.ENOLINK => 67
  | Errno.EADV => 68
  | Errno.ESRMNT => 69
  | Errno.ECOMM => 70
  | Errno.EPROTO => 71
  | Errno.EMULTIHOP => 72
  | Errno.EDOTDOT => 73
  | Errno.EBADMSG => 74
  | Errno.EOVERFLOW => 75
  | Errno.ENOTUNIQ => 76
  | Errno.EBADFD => 77
  | Errno.EREMCHG => 78
  | Errno.ELIBACC => 79
  | Errno.ELIBBAD => 80
  | Errno.ELIBSCN => 81
  | Errno.ELIBMAX => 82
  | Errno.ELIBEXEC => 83
  | Errno.EILSEQ => 84
  | Errno.ERESTART => 85
  | Errno.ESTRPIPE => 86
  | Errno.EUSERS => 87
  | Errno.ENOTSOCK => 88
  | Errno.EDESTADDRREQ => 89
  | Errno.EMSGSIZE => 90
  | Errno.EPROTOTYPE => 91
  | Errno.ENOPROTOOPT => 92
  | Errno.EPROTONOSUPPORT => 93
  | Errno.ESOCKTNOSUPPORT => 94
  | Errno.EOPNOTSUPP => 95
  | Errno.EPFNOSUPPORT => 96
  | Errno.EAFNOSUPPORT => 97
  | Errno.EADDRINUSE => 98
  | Errno.EADDRNOTAVAIL => 99
  | Errno.ENETDOWN => 100
  | Errno.ENETUNREACH => 101
  | Errno.ENETRESET => 102
  | Errno.ECONNABORTED => 103
  | Errno.ECONNRESET => 104
  | Errno.ENOBUFS => 105
  | Errno.EISCONN => 106
  | Errno.ENOTCONN => 107
  | Errno.ESHUTDOWN => 108
  | Errno.ETOOMANYREFS => 109
  | Errno.ETIMEDOUT => 110
  | Errno.ECONNREFUSED => 111
  | Errno.EHOSTDOWN => 112
  | Errno.EHOSTUNREACH => 113
  | Errno.EALREADY => 114
  | Errno.EINPROGRESS => 115
  | Errno.ESTALE => 116
  | Errno.EUCLEAN => 117
  | Errno.ENOTNAM => 118
  | Errno.ENAVAIL => 119
  | Errno.EISNAM => 120
  | Errno.EREMOTEIO => 121
  | Errno.EDQUOT => 122
  | Errno.ENOMEDIUM => 123
  | Errno.EMEDIUMTYPE => 124
  | Errno.ECANCELED => 125
  | Errno.ENOKEY => 126
  | Errno.EKEYEXPIRED => 127
  | Errno.EKEYREVOKED => 128
  | Errno.EKEYREJECTED => 129
  | Errno.EOWNERDEAD => 130
  | Errno.ENOTRECOVERABLE => 131
  | Errno.ERFKILL => 132
  | Errno.EHWPOISON => 133

/-- The members of the Error Code Table in declaration order. -/
def errnoList : List Errno :=
  [ Errno.EPERM,
    Errno.ENOENT,
    Errno.ESRCH,
    Errno.EINTR,
    Errno.EIO,
    Errno.ENXIO,
    Errno.E2BIG,
    Errno.ENOEXEC,
    Errno.EBADF,
    Errno.ECHILD,
    Errno.EAGAIN,
    Errno.ENOMEM,
    Errno.EACCES,
    Errno.EFAULT,
    Errno.ENOTBLK,
    Errno.EBUSY,
    Errno.EEXIST,
    Errno.EXDEV,
    Errno.ENODEV,
    Errno.ENOTDIR,
    Errno.EISDIR,
    Errno.EINVAL,
    Errno.ENFILE,
    Errno.EMFILE,
    Errno.ENOTTY,
    Errno.ETXTBSY,
    Errno.EFBIG,
    Errno.ENOSPC,
    Errno.ESPIPE,
    Errno.EROFS,
    Errno.EMLINK,
    Errno.EPIPE,
    Errno.EDOM,
    Errno.ERANGE,
    Errno.EDEADLK,
    Errno.ENAMETOOLONG,
    Errno.ENOLCK,
    Errno.ENOSYS,
    Errno.ENOTEMPTY,
    Errno.ELOOP,
    Errno.ENOMSG,
    Errno.EIDRM,
    Errno.ECHRNG,
    Errno.EL2NSYNC,
    Errno.EL3HLT,
    Errno.EL3RST,
    Errno.ELNRNG,
    Errno.EUNATCH,
    Errno.ENOCSI,
    Errno.EL2HLT,
    Errno.EBADE,
    Errno.EBADR,
    Errno.EXFULL,
    Errno.ENOANO,
    Errno.EBADRQC,
    Errno.EBADSLT,
    Errno.EBFONT,
    Errno.ENOSTR,
    Errno.ENODATA,
    Errno.ETIME,
    Errno.ENOSR,
    Errno.ENONET,
    Errno.ENOPKG,
    Errno.EREMOTE,
    Errno.ENOLINK,
    Errno.EADV,
    Errno.ESRMNT,
    Errno.ECOMM,
    Errno.EPROTO,
    Errno.EMULTIHOP,
    Errno.EDOTDOT,
    Errno.EBADMSG,
    Errno.EOVERFLOW,
    Errno.ENOTUNIQ,
    Errno.EBADFD,
    Errno.EREMCHG,
    Errno.ELIBACC,
    Errno.ELIBBAD,
    Errno.ELIBSCN,
    Errno.ELIBMAX,
    Errno.ELIBEXEC,
    Errno.EILSEQ,
    Errno.ERESTART,
    Errno.ESTRPIPE,
    Errno.EUSERS,
    Errno.ENOTSOCK,
    Errno.EDESTADDRREQ,
    Errno.EMSGSIZE,
    Errno.EPROTOTYPE,
    Errno.ENOPROTOOPT,
    Errno.EPROTONOSUPPORT,
    Errno.ESOCKTNOSUPPORT,
    Errno.EOPNOTSUPP,
    Errno.EPFNOSUPPORT,
    Errno.EAFNOSUPPORT,
    Errno.EADDRINUSE,
    Errno.EADDRNOTAVAIL,
    Errno.ENETDOWN,
    Errno.ENETUNREACH,
    Errno.ENETRESET,
    Errno.ECONNABORTED,
    Errno.ECONNRESET,
    Errno.ENOBUFS,
    Errno.EISCONN,
    Errno.ENOTCONN,
    Errno.ESHUTDOWN,
    Errno.ETOOMANYREFS,
    Errno.ETIMEDOUT,
    Errno.ECONNREFUSED,
    Errno.EHOSTDOWN,
    Errno.EHOSTUNREACH,
    Errno.EALREADY,
    Errno.EINPROGRESS,
    Errno.ESTALE,
    Errno.EUCLEAN,
    Errno.ENOTNAM,
    Errno.ENAVAIL,
    Errno.EISNAM,
    Errno.EREMOTEIO,
    Errno.EDQUOT,
    Errno.ENOMEDIUM,
    Errno.EMEDIUMTYPE,
    Errno.ECANCELED,
    Errno.ENOKEY,
    Errno.EKEYEXPIRED,
    Errno.EKEYREVOKED,
    Errno.EKEYREJECTED,
    Errno.EOWNERDEAD,
    Errno.ENOTRECOVERABLE,
    Errno.ERFKILL,
    Errno.EHWPOISON]

/-- Modelled from the spec: the numeric-code to symbolic-condition lookup of
the Error Code Table ("Lookup by numeric code → symbolic condition: total for
all codes that appear in the table; codes outside the table (including the
gaps) have no symbolic representation").  The source declares the table (the
`Errno` discriminants) but no lookup function, so the lookup is realised here
from the spec's words: scan the table for the member whose code matches,
`none` when no member has the requested code. -/
def Errno.fromCode (n : Nat) : Option Errno :=
  errnoList.find? (fun e => Errno.toCode e == n)

/-- Embedding of the alias `pub const EWOULDBLOCK: Errno = Errno::EAGAIN`
(src/errno.rs): an alternate name, not an independent member. -/
def EWOULDBLOCK : Errno := Errno.EAGAIN

/-- Embedding of the alias `pub const EDEADLOCK: Errno = Errno::EDEADLK`
(src/errno.rs): an alternate name, not an independent member. -/
def EDEADLOCK : Errno := Errno.EDEADLK

/-- Embedding of the derived `Clone` implementation of `Errno`: the type is
`Copy`, so the derived clone returns the value itself. -/
def Errno.clone (e : Errno) : Errno := e

/-!
Helper lemmas shared by the claim theorems.
-/

/-- Casting a value that already lies in the unsigned range is the identity
reinterpretation. -/
theorem isizeToUsize_eq_toNat {x : Int} (h0 : 0 ≤ x) (h1 : x < 2 ^ 64) :
    isizeToUsize x = x.toNat := by
  unfold isizeToUsize
  rw [Int.emod_eq_of_lt h0 h1]

/-- Evaluation of the conversion helper on a non-negative raw value below
the unsigned bound, in both arithmetic profiles. -/
theorem convert_eval_nonneg {raw : Int} (h : 0 ≤ raw) (h2 : raw < 2 ^ 64) :
    convert_raw_return_code_from_rax raw = Except.ok raw.toNat ∧
      convert_raw_return_code_from_rax_checked raw = some (Except.ok raw.toNat) := by
  unfold convert_raw_return_code_from_rax convert_raw_return_code_from_rax_checked
  rw [if_neg (not_lt.mpr h), if_neg (not_lt.mpr h), isizeToUsize_eq_toNat h h2]
  exact ⟨rfl, rfl⟩

/-- Evaluation of the conversion helper on any negative raw value: the error
payload is the arithmetic negation reduced to the unsigned machine range. -/
theorem convert_eval_neg {raw : Int} (h : raw < 0) :
    convert_raw_return_code_from_rax raw = Except.error (((-raw) % 2 ^ 64).toNat) := by
  unfold convert_raw_return_code_from_rax isizeToUsize wrapNegIsize
  rw [if_pos h]
  have key : ((-raw + 2 ^ 63) % 2 ^ 64 - 2 ^ 63) % 2 ^ 64 = (-raw) % 2 ^ 64 := by omega
  rw [key]

/-- Evaluation of the checked conversion helper on a negative raw value
strictly above `isize::MIN`: the negation is representable and the error
payload is the plain magnitude. -/
theorem convert_checked_eval_neg {raw : Int} (h0 : -(2 ^ 63) < raw) (h2 : raw < 0) :
    convert_raw_return_code_from_rax_checked raw = some (Except.error (-raw).toNat) := by
  unfold convert_raw_return_code_from_rax_checked isizeMin isizeMax isizeToUsize
  rw [if_pos h2, if_pos (by constructor <;> omega)]
  rw [Int.emod_eq_of_lt (by omega) (by omega)]

/-- Every member's numeric code lies in the range 1 to 133 and avoids the
gap values 41 and 58. -/
theorem Errno.toCode_mem (e : Errno) :
    1 ≤ Errno.toCode e ∧ Errno.toCode e ≤ 133 ∧
      Errno.toCode e ≠ 41 ∧ Errno.toCode e ≠ 58 := by
  cases e <;> decide

/-- Looking up a member's own code finds exactly that member. -/
theorem Errno.fromCode_toCode (e : Errno) : Errno.fromCode (Errno.toCode e) = some e := by
  cases e <;> rfl

/-- A successful lookup returns a member carrying the requested code. -/
theorem Errno.fromCode_sound {n : Nat} {e : Errno} (h : Errno.fromCode n = some e) :
    Errno.toCode e = n := by
  have hp := List.find?_some h
  simpa using hp

/-- Distinct members carry distinct numeric codes. -/
theorem Errno.toCode_injective : Function.Injective Errno.toCode := by
  intro a b h
  have ha := Errno.fromCode_toCode a
  have hb := Errno.fromCode_toCode b
  rw [h] at ha
  exact Option.some.inj (ha.symm.trans hb)

/-- The lookup succeeds on every code of the table's range. -/
theorem Errno.fromCode_isSome {n : Nat} (h1 : 1 ≤ n) (h2 : n ≤ 133)
    (h3 : n ≠ 41) (h4 : n ≠ 58) : (Errno.fromCode n).isSome = true := by
  interval_cases n <;> first | rfl | omega

/-!
Claim theorems.
-/

/-- C1: for every raw signed return value in the machine range that is
non-negative, `convert_raw_return_code_from_rax` returns the success variant
with payload the raw value reinterpreted as an unsigned machine word (which,
the value being non-negative, is the value itself), in both arithmetic
profiles. -/
theorem convert_nonneg_ok (raw : Int) (h0 : 0 ≤ raw) (h1 : raw ≤ isizeMax) :
    convert_raw_return_code_from_rax raw = Except.ok raw.toNat ∧
      convert_raw_return_code_from_rax_checked raw = some (Except.ok raw.toNat) ∧
      ((raw.toNat : Nat) : Int) = raw := by
  have hb : isizeMax < 2 ^ 64 := by norm_num [isizeMax]
  have h2 : raw < 2 ^ 64 := by omega
  obtain ⟨ha, hc⟩ := convert_eval_nonneg h0 h2
  exact ⟨ha, hc, Int.toNat_of_nonneg h0⟩

/-- Witness for C1 at the raw value 7. -/
theorem convert_nonneg_ok_witness :
    (0 : Int) ≤ 7 ∧ (7 : Int) ≤ isizeMax ∧
      (convert_raw_return_code_from_rax 7 = Except.ok (Int.toNat 7) ∧
        convert_raw_return_code_from_rax_checked 7 = some (Except.ok (Int.toNat 7)) ∧
        ((Int.toNat 7 : Nat) : Int) = 7) :=
  ⟨by norm_num, by norm_num [isizeMax],
    convert_nonneg_ok 7 (by norm_num) (by norm_num [isizeMax])⟩

/-- C2: for every raw signed return value in the machine range that is
negative, `convert_raw_return_code_from_rax` returns the failure variant
with code the arithmetic negation of the raw value reinterpreted as an
unsigned machine word; above the minimum word the reinterpretation is the
plain magnitude. -/
theorem convert_neg_err (raw : Int) (h0 : isizeMin ≤ raw) (h1 : raw < 0) :
    convert_raw_return_code_from_rax raw = Except.error (((-raw) % 2 ^ 64).toNat) ∧
      (isizeMin < raw → convert_raw_return_code_from_rax raw = Except.error (-raw).toNat) := by
  refine ⟨convert_eval_neg h1, fun hlt => ?_⟩
  rw [convert_eval_neg h1]
  have hmin : -(2 ^ 63) < raw := by simpa [isizeMin] using hlt
  rw [Int.emod_eq_of_lt (by omega) (by omega)]

/-- Witness for C2 at the raw value -5. -/
theorem convert_neg_err_witness :
    isizeMin ≤ (-5 : Int) ∧ (-5 : Int) < 0 ∧
      (convert_raw_return_code_from_rax (-5) =
          Except.error (((-(-5 : Int)) % 2 ^ 64).toNat) ∧
        (isizeMin < (-5 : Int) →
          convert_raw_return_code_from_rax (-5) = Except.error (-(-5 : Int)).toNat)) :=
  ⟨by norm_num [isizeMin], by norm_num,
    convert_neg_err (-5) (by norm_num [isizeMin]) (by norm_num)⟩

/-- C3: at the minimum signed machine word the checked negation overflows,
so the conversion panics under checked arithmetic (modelled `none`); under
two's-complement wrapping it yields the error code 2 ^ 63, which is not a
value of the Errno code set; for every other negative input the negation is
representable and the checked conversion succeeds. -/
theorem convert_min_overflow :
    convert_raw_return_code_from_rax_checked isizeMin = none ∧
      convert_raw_return_code_from_rax isizeMin = Except.error (2 ^ 63) ∧
      (∀ e : Errno, Errno.toCode e ≠ 2 ^ 63) ∧
      (∀ raw : Int, isizeMin < raw → raw < 0 →
        convert_raw_return_code_from_rax_checked raw = some (Except.error (-raw).toNat)) := by
  refine ⟨rfl, rfl, fun e => ?_, fun raw hmin hneg => ?_⟩
  · have h := (Errno.toCode_mem e).2.1
    omega
  · exact convert_checked_eval_neg (by simpa [isizeMin] using hmin) hneg

/-- Witness for C3: the checked conversion succeeds at the raw value -9,
strictly above the minimum word. -/
theorem convert_min_overflow_witness :
    isizeMin < (-9 : Int) ∧ (-9 : Int) < 0 ∧
      convert_raw_return_code_from_rax_checked (-9) = some (Except.error 9) :=
  ⟨by norm_num [isizeMin], by norm_num,
    by simpa using convert_min_overflow.2.2.2 (-9) (by norm_num [isizeMin]) (by norm_num)⟩

/-- C9: for every negative raw value strictly above the minimum signed
machine word, the failure code produced by the conversion is strictly
positive, so 0 is never an error payload and a failure can never be
confused with the success payload 0. -/
theorem convert_err_pos (raw : Int) (h0 : isizeMin < raw) (h1 : raw < 0) :
    ∀ c : Nat, convert_raw_return_code_from_rax raw = Except.error c → 0 < c := by
  intro c hc
  rw [convert_eval_neg h1] at hc
  have hmin : -(2 ^ 63) < raw := by simpa [isizeMin] using h0
  injection hc with h
  omega

/-- Witness for C9 at the raw value -3, whose error code is 3. -/
theorem convert_err_pos_witness :
    isizeMin < (-3 : Int) ∧ (-3 : Int) < 0 ∧ (0 : Nat) < 3 :=
  ⟨by norm_num [isizeMin], by norm_num,
    convert_err_pos (-3) (by norm_num [isizeMin]) (by norm_num) 3 (by rfl)⟩

/-- C10: on the machine range excluding the minimum word the conversion is
lossless: a success payload reinterpreted as signed gives back the raw
value, and the negation of an error code reinterpreted as signed gives back
the raw value, so the result uniquely determines the raw return value. -/
theorem convert_roundtrip (raw : Int) (h0 : isizeMin < raw) (h1 : raw ≤ isizeMax) :
    (∀ p : Nat, convert_raw_return_code_from_rax raw = Except.ok p →
      usizeToIsize p = raw) ∧
      (∀ c : Nat, convert_raw_return_code_from_rax raw = Except.error c →
        -(usizeToIsize c) = raw) := by
  have hmin : -(2 ^ 63) < raw := by simpa [isizeMin] using h0
  have hmax : raw ≤ 2 ^ 63 - 1 := by simpa [isizeMax] using h1
  constructor
  · intro p hp
    rcases lt_or_le raw 0 with hneg | hpos
    · rw [convert_eval_neg hneg] at hp
      exact Except.noConfusion hp
    · obtain ⟨ha, _⟩ := convert_eval_nonneg hpos (by omega)
      rw [ha] at hp
      injection hp with h
      subst h
      unfold usizeToIsize
      have hcond : raw.toNat < 2 ^ 63 := by omega
      rw [if_pos hcond]
      omega
  · intro c hc
    rcases lt_or_le raw 0 with hneg | hpos
    · rw [convert_eval_neg hneg] at hc
      injection hc with h
      subst h
      unfold usizeToIsize
      have hcond : ((-raw) % 2 ^ 64).toNat < 2 ^ 63 := by omega
      rw [if_pos hcond]
      omega
    · obtain ⟨ha, _⟩ := convert_eval_nonneg hpos (by omega)
      rw [ha] at hc
      exact Except.noConfusion hc

/-- Witness for C10 at the raw value -7: the error code 7 reinterpreted and
negated gives back -7. -/
theorem convert_roundtrip_witness :
    isizeMin < (-7 : Int) ∧ (-7 : Int) ≤ isizeMax ∧ -(usizeToIsize 7) = (-7 : Int) :=
  ⟨by norm_num [isizeMin], by norm_num [isizeMax],
    (convert_roundtrip (-7) (by norm_num [isizeMin]) (by norm_num [isizeMax])).2 7 (by rfl)⟩

/-- C4: the numeric codes of the Errno members are exactly the integers 1 to
133 with 41 and 58 absent, and distinct members carry distinct codes. -/
theorem errno_code_set :
    Function.Injective Errno.toCode ∧
      ∀ n : Nat, (∃ e : Errno, Errno.toCode e = n) ↔
        (1 ≤ n ∧ n ≤ 133 ∧ n ≠ 41 ∧ n ≠ 58) := by
  refine ⟨Errno.toCode_injective, fun n => ⟨?_, ?_⟩⟩
  · rintro ⟨e, rfl⟩
    exact Errno.toCode_mem e
  · rintro ⟨h1, h2, h3, h4⟩
    obtain ⟨e, he⟩ := Option.isSome_iff_exists.mp (Errno.fromCode_isSome h1 h2 h3 h4)
    exact ⟨e, Errno.fromCode_sound he⟩

/-- Witness for C4: the code 42 lies in the range and is realised by a
member. -/
theorem errno_code_set_witness : ∃ e : Errno, Errno.toCode e = 42 :=
  (errno_code_set.2 42).mpr (by norm_num)

/-- C5: the alias EWOULDBLOCK equals the member EAGAIN with numeric value 11
and identical lookup behaviour, and the alias EDEADLOCK equals the member
EDEADLK with numeric value 35 and identical lookup behaviour; neither is an
independent member. -/
theorem errno_aliases :
    EWOULDBLOCK = Errno.EAGAIN ∧ Errno.toCode EWOULDBLOCK = 11 ∧
      Errno.toCode Errno.EAGAIN = 11 ∧
      Errno.fromCode (Errno.toCode EWOULDBLOCK) = some Errno.EAGAIN ∧
      EDEADLOCK = Errno.EDEADLK ∧ Errno.toCode EDEADLOCK = 35 ∧
      Errno.toCode Errno.EDEADLK = 35 ∧
      Errno.fromCode (Errno.toCode EDEADLOCK) = some Errno.EDEADLK :=
  ⟨rfl, rfl, rfl, rfl, rfl, rfl, rfl, rfl⟩

/-- C6: the numeric-code lookup is total on the table (each member is found
from its own code), sound (a found member carries the requested code), has
at most one member per code, and returns nothing for codes outside the
table, the gap values 41 and 58 included. -/
theorem errno_fromCode_lookup :
    (∀ e : Errno, Errno.fromCode (Errno.toCode e) = some e) ∧
      (∀ (n : Nat) (e : Errno), Errno.fromCode n = some e → Errno.toCode e = n) ∧
      (∀ (n : Nat) (e1 e2 : Errno),
        Errno.toCode e1 = n → Errno.toCode e2 = n → e1 = e2) ∧
      Errno.fromCode 41 = none ∧ Errno.fromCode 58 = none ∧
      (∀ n : Nat, (∀ e : Errno, Errno.toCode e ≠ n) → Errno.fromCode n = none) := by
  refine ⟨Errno.fromCode_toCode, fun n e h => Errno.fromCode_sound h,
    fun n e1 e2 h1 h2 => Errno.toCode_injective (h1.trans h2.symm), rfl, rfl,
    fun n hn => ?_⟩
  cases h : Errno.fromCode n with
  | none => rfl
  | some e => exact absurd (Errno.fromCode_sound h) (hn e)

/-- Witness for C6: the member carrying the code 2 is found by the lookup. -/
theorem errno_fromCode_lookup_witness :
    Errno.fromCode (Errno.toCode Errno.ENOENT) = some Errno.ENOENT :=
  errno_fromCode_lookup.1 Errno.ENOENT

/-- C7: the invocation surface is the seven arity-specific entry points, one
per argument count 0 through 6; each takes the unsigned machine-word syscall
number first, passes exactly its arity many machine-word arguments to the
kernel transition in positional order, and returns the Syscall Result
produced by the shared conversion of the raw signed return value. -/
theorem syscall_entry_points (k : Kernel) (num a1 a2 a3 a4 a5 a6 : Nat) :
    (syscall_without_args k num =
        convert_raw_return_code_from_rax_checked (k num []) ∧
      List.length ([] : List Nat) = 0) ∧
    (syscall_with_1_arg k num a1 =
        convert_raw_return_code_from_rax_checked (k num [a1]) ∧
      List.length [a1] = 1) ∧
    (syscall_with_2_args k num a1 a2 =
        convert_raw_return_code_from_rax_checked (k num [a1, a2]) ∧
      List.length [a1, a2] = 2) ∧
    (syscall_with_3_args k num a1 a2 a3 =
        convert_raw_return_code_from_rax_checked (k num [a1, a2, a3]) ∧
      List.length [a1, a2, a3] = 3) ∧
    (syscall_with_4_args k num a1 a2 a3 a4 =
        convert_raw_return_code_from_rax_checked (k num [a1, a2, a3, a4]) ∧
      List.length [a1, a2, a3, a4] = 4) ∧
    (syscall_with_5_args k num a1 a2 a3 a4 a5 =
        convert_raw_return_code_from_rax_checked (k num [a1, a2, a3, a4, a5]) ∧
      List.length [a1, a2, a3, a4, a5] = 5) ∧
    (syscall_with_6_args k num a1 a2 a3 a4 a5 a6 =
        convert_raw_return_code_from_rax_checked (k num [a1, a2, a3, a4, a5, a6]) ∧
      List.length [a1, a2, a3, a4, a5, a6] = 6) :=
  ⟨⟨rfl, rfl⟩, ⟨rfl, rfl⟩, ⟨rfl, rfl⟩, ⟨rfl, rfl⟩, ⟨rfl, rfl⟩, ⟨rfl, rfl⟩, ⟨rfl, rfl⟩⟩

/-- C8: equality on Errno is reflexive, members can be freely duplicated,
and a copy compares equal to the original. -/
theorem errno_eq_refl_copy :
    ∀ e : Errno, (e == e) = true ∧ Errno.clone e = e ∧
      (Errno.clone e == e) = true := by
  intro e
  cases e <;> exact ⟨rfl, rfl, rfl⟩
